import Mathlib

/-!
Verification development for the canvas vector-graphics engine.

The definitions below are a shallow embedding of `canvas.go`: the drawing-layer
stack (`C`, `drawState`, `pathLayer`), the per-backend compilers
(`pathLayer.WritePDF`, `pathLayer.WriteSVG`, `pathLayer.WriteEPS`,
`C.WriteImage`) and their surrounding data model.  Collaborator code that the
repository uses but that is not part of the source under scrutiny (the `Path`
type and its serializers, the capper/joiner implementations, the stroking and
dashing kernel, the color constants, the `Text` collaborator) is modelled from
the specification; each such definition is marked `Modelled from the spec:` in
its doc comment.  Backend sinks (the PDF page writer, the EPS writer, the
rasterizer) are modelled as lists of emitted primitive operations, one list
element per primitive call the Go code makes on the sink.
-/

set_option autoImplicit false

namespace canvas

/-- Eight-bit-per-channel RGBA color, as Go's `color.RGBA`.  Channel values are
natural numbers; only exact component equality is ever used. -/
structure RGBA where
  r : Nat
  g : Nat
  b : Nat
  a : Nat
deriving DecidableEq

/-- Modelled from the spec: the opaque-black color constant used as the default
fill color (the color constants live in a source file absent from `src/`). -/
def Black : RGBA := ⟨0, 0, 0, 255⟩

/-- Modelled from the spec: the fully opaque white color constant used for the
raster background. -/
def White : RGBA := ⟨255, 255, 255, 255⟩

/-- Modelled from the spec: the fully transparent color constant used as the
default stroke color. -/
def Transparent : RGBA := ⟨0, 0, 0, 0⟩

/-- The blank (space) byte used as a token separator and in emitted operator
sequences. -/
def blank : Char := Char.ofNat 32

/-- Modelled from the spec: the closed line-cap variant set is butt, round and
square.  The source represents cappers as concrete implementations of a
`Capper` interface and backends dispatch by runtime type inspection, so an
extra variant `other` stands for an unrecognized implementation outside the
declared set. -/
inductive Capper where
  | butt
  | round
  | square
  | other
deriving DecidableEq

/-- Modelled from the spec: the closed line-join variant set.  A miter join
carries an optional limit — `none` models the not-a-number "unbounded" limit
(no clipping ever occurs) — and a gap joiner used beyond the limit; an arcs
join carries an optional limit in the same way.  `other` stands for an
unrecognized `Joiner` implementation outside the declared set. -/
inductive Joiner where
  | bevel
  | round
  | arcs (limit : Option ℚ)
  | miter (limit : Option ℚ) (gapJoiner : Joiner)
  | other
deriving DecidableEq

/-- Modelled from the spec: the global fill-rule switch has two values,
non-zero winding (the default) and even-odd. -/
inductive FillRuleKind where
  | NonZero
  | EvenOdd
deriving DecidableEq

/-- The package-level `FillRule` configuration, at its default value. -/
def FillRule : FillRuleKind := FillRuleKind.NonZero

/-- Modelled from the spec: a path segment — lines, cubic and quadratic curves,
arcs, and the explicit close-subpath command, with rational coordinates. -/
inductive Segment where
  | moveTo (x y : ℚ)
  | lineTo (x y : ℚ)
  | quadTo (cpx cpy x y : ℚ)
  | cubeTo (cp1x cp1y cp2x cp2y x y : ℚ)
  | arcTo (rx ry rot x y : ℚ)
  | close
deriving DecidableEq

/-- Modelled from the spec: a path is an ordered sequence of segments.  The
stroking and dashing kernel (whose source is not under `src/`) produces new
paths from old ones; since none of the claims depend on the geometry the
kernel computes, its results are recorded symbolically by the `stroked` and
`dashed` constructors, faithful to the spec's description of the kernel as a
pure path-to-path transformation. -/
inductive Path where
  | mk (segs : List Segment)
  | stroked (p : Path) (w : ℚ) (cap : Capper) (join : Joiner)
  | dashed (p : Path) (offset : ℚ) (d : List ℚ)
deriving DecidableEq

/-- Modelled from the spec: `Empty` returns true iff the path has no drawable
segments; kernel-produced paths are treated as drawable. -/
def Path.Empty : Path → Bool
  | Path.mk segs => segs.isEmpty
  | _ => false

/-- Modelled from the spec: `Copy` is an explicit duplication step; under value
semantics it returns an equal path value. -/
def Path.Copy (p : Path) : Path := p

/-- Modelled from the spec: translating a segment shifts its coordinates. -/
def Segment.translate (dx dy : ℚ) : Segment → Segment
  | Segment.moveTo x y => Segment.moveTo (x + dx) (y + dy)
  | Segment.lineTo x y => Segment.lineTo (x + dx) (y + dy)
  | Segment.quadTo cpx cpy x y => Segment.quadTo (cpx + dx) (cpy + dy) (x + dx) (y + dy)
  | Segment.cubeTo c1x c1y c2x c2y x y =>
      Segment.cubeTo (c1x + dx) (c1y + dy) (c2x + dx) (c2y + dy) (x + dx) (y + dy)
  | Segment.arcTo rx ry rot x y => Segment.arcTo rx ry rot (x + dx) (y + dy)
  | Segment.close => Segment.close

/-- Modelled from the spec: scaling a segment multiplies its coordinates. -/
def Segment.scale (sx sy : ℚ) : Segment → Segment
  | Segment.moveTo x y => Segment.moveTo (sx * x) (sy * y)
  | Segment.lineTo x y => Segment.lineTo (sx * x) (sy * y)
  | Segment.quadTo cpx cpy x y => Segment.quadTo (sx * cpx) (sy * cpy) (sx * x) (sy * y)
  | Segment.cubeTo c1x c1y c2x c2y x y =>
      Segment.cubeTo (sx * c1x) (sy * c1y) (sx * c2x) (sy * c2y) (sx * x) (sy * y)
  | Segment.arcTo rx ry rot x y => Segment.arcTo (sx * rx) (sy * ry) rot (sx * x) (sy * y)
  | Segment.close => Segment.close

/-- Modelled from the spec: `Translate` is a pure transform returning a new
path value; it commutes with the kernel constructors. -/
def Path.Translate : Path → ℚ → ℚ → Path
  | Path.mk segs, dx, dy => Path.mk (segs.map (Segment.translate dx dy))
  | Path.stroked p w c j, dx, dy => Path.stroked (Path.Translate p dx dy) w c j
  | Path.dashed p o d, dx, dy => Path.dashed (Path.Translate p dx dy) o d

/-- Modelled from the spec: `Scale` is a pure transform returning a new path
value. -/
def Path.Scale : Path → ℚ → ℚ → Path
  | Path.mk segs, sx, sy => Path.mk (segs.map (Segment.scale sx sy))
  | Path.stroked p w c j, sx, sy => Path.stroked (Path.Scale p sx sy) w c j
  | Path.dashed p o d, sx, sy => Path.dashed (Path.Scale p sx sy) o d

/-- Modelled from the spec: the dashing kernel splits a path along its arc
length into on/off runs; recorded symbolically. -/
def Path.Dash (p : Path) (offset : ℚ) (d : List ℚ) : Path := Path.dashed p offset d

/-- Modelled from the spec: the stroking kernel converts a center-line path
plus stroke style into a filled outline path; recorded symbolically. -/
def Path.Stroke (p : Path) (w : ℚ) (cap : Capper) (join : Joiner) : Path :=
  Path.stroked p w cap join

/-- Decimal digit character for `n % 10`. -/
def decDigit : Nat → Char
  | 0 => '0'
  | 1 => '1'
  | 2 => '2'
  | 3 => '3'
  | 4 => '4'
  | 5 => '5'
  | 6 => '6'
  | 7 => '7'
  | 8 => '8'
  | 9 => '9'
  | _ => 'X'

/-- Fuel-driven decimal rendering of a natural number (most significant digit
first); the fuel is always sufficient when seeded with `n + 1`. -/
def natCharsAux : Nat → Nat → List Char
  | 0, _ => []
  | fuel + 1, n =>
      if n < 10 then [decDigit n]
      else natCharsAux fuel (n / 10) ++ [decDigit (n % 10)]

/-- Decimal rendering of a natural number. -/
def natChars (n : Nat) : List Char := natCharsAux (n + 1) n

/-- Decimal rendering of an integer, with a leading minus sign if negative. -/
def intChars (i : Int) : List Char :=
  if i < 0 then '-' :: natChars i.natAbs else natChars i.natAbs

/-- Modelled from the spec: rendering of a rational coordinate as a numeric
token (numerator, slash, denominator).  The exact number format of the absent
serializer sources is immaterial to the claims; what matters is that a numeric
token never begins with a blank and that the close-subpath token is the final
`h` byte. -/
def ratTok (q : ℚ) : List Char := intChars q.num ++ '/' :: natChars q.den

/-- Modelled from the spec: per-segment token of the page-description (PDF)
serialization; postfix operator letters, close-subpath serialized as `h`. -/
def segTokPDF : Segment → List Char
  | Segment.moveTo x y => ratTok x ++ blank :: ratTok y ++ [blank, 'm']
  | Segment.lineTo x y => ratTok x ++ blank :: ratTok y ++ [blank, 'l']
  | Segment.quadTo cpx cpy x y =>
      ratTok cpx ++ blank :: ratTok cpy ++ blank :: ratTok x ++ blank :: ratTok y ++ [blank, 'v']
  | Segment.cubeTo c1x c1y c2x c2y x y =>
      ratTok c1x ++ blank :: ratTok c1y ++ blank :: ratTok c2x ++ blank :: ratTok c2y ++
        blank :: ratTok x ++ blank :: ratTok y ++ [blank, 'c']
  | Segment.arcTo rx ry rot x y =>
      ratTok rx ++ blank :: ratTok ry ++ blank :: ratTok rot ++ blank :: ratTok x ++
        blank :: ratTok y ++ [blank, 'a']
  | Segment.close => ['h']

/-- Space-separated concatenation of the per-segment PDF tokens. -/
def pdfSegs : List Segment → List Char
  | [] => []
  | [s] => segTokPDF s
  | s :: rest => segTokPDF s ++ blank :: pdfSegs rest

/-- Modelled from the spec: `ToPDF` serializes a path for the page-description
backend; a closed path's serialized form ends in the explicit close-subpath
token `h`.  Kernel-produced paths serialize their recorded payload behind a
marker byte (their concrete geometry is outside the claims). -/
def Path.ToPDF : Path → List Char
  | Path.mk segs => pdfSegs segs
  | Path.stroked p _ _ _ => 'o' :: Path.ToPDF p
  | Path.dashed p _ _ => 'd' :: Path.ToPDF p

/-- Modelled from the spec: per-segment token of the PostScript serialization. -/
def segTokPS : Segment → List Char
  | Segment.moveTo x y => ratTok x ++ blank :: ratTok y ++ [blank, 'M']
  | Segment.lineTo x y => ratTok x ++ blank :: ratTok y ++ [blank, 'L']
  | Segment.quadTo cpx cpy x y =>
      ratTok cpx ++ blank :: ratTok cpy ++ blank :: ratTok x ++ blank :: ratTok y ++ [blank, 'V']
  | Segment.cubeTo c1x c1y c2x c2y x y =>
      ratTok c1x ++ blank :: ratTok c1y ++ blank :: ratTok c2x ++ blank :: ratTok c2y ++
        blank :: ratTok x ++ blank :: ratTok y ++ [blank, 'C']
  | Segment.arcTo rx ry rot x y =>
      ratTok rx ++ blank :: ratTok ry ++ blank :: ratTok rot ++ blank :: ratTok x ++
        blank :: ratTok y ++ [blank, 'A']
  | Segment.close => ['Z']

/-- Space-separated concatenation of the per-segment PostScript tokens. -/
def psSegs : List Segment → List Char
  | [] => []
  | [s] => segTokPS s
  | s :: rest => segTokPS s ++ blank :: psSegs rest

/-- Modelled from the spec: `ToPS` serializes a path for the PostScript-like
backend. -/
def Path.ToPS : Path → List Char
  | Path.mk segs => psSegs segs
  | Path.stroked p _ _ _ => 'o' :: Path.ToPS p
  | Path.dashed p _ _ => 'd' :: Path.ToPS p

/-- Modelled from the spec: per-segment token of the SVG path-data
serialization. -/
def segTokSVG : Segment → List Char
  | Segment.moveTo x y => 'M' :: ratTok x ++ blank :: ratTok y
  | Segment.lineTo x y => 'L' :: ratTok x ++ blank :: ratTok y
  | Segment.quadTo cpx cpy x y => 'Q' :: ratTok cpx ++ blank :: ratTok cpy ++ blank :: ratTok x ++ blank :: ratTok y
  | Segment.cubeTo c1x c1y c2x c2y x y =>
      'C' :: ratTok c1x ++ blank :: ratTok c1y ++ blank :: ratTok c2x ++ blank :: ratTok c2y ++
        blank :: ratTok x ++ blank :: ratTok y
  | Segment.arcTo rx ry rot x y =>
      'A' :: ratTok rx ++ blank :: ratTok ry ++ blank :: ratTok rot ++ blank :: ratTok x ++ blank :: ratTok y
  | Segment.close => ['z']

/-- Space-separated concatenation of the per-segment SVG tokens. -/
def svgSegs : List Segment → List Char
  | [] => []
  | [s] => segTokSVG s
  | s :: rest => segTokSVG s ++ blank :: svgSegs rest

/-- Modelled from the spec: `ToSVG` serializes a path as SVG path data. -/
def Path.ToSVG : Path → List Char
  | Path.mk segs => svgSegs segs
  | Path.stroked p _ _ _ => 'o' :: Path.ToSVG p
  | Path.dashed p _ _ => 'd' :: Path.ToSVG p

/-- The draw state of `canvas.go`: fill color, stroke color, stroke width,
capper, joiner, dash offset and dash pattern. -/
structure drawState where
  fillColor : RGBA
  strokeColor : RGBA
  strokeWidth : ℚ
  strokeCapper : Capper
  strokeJoiner : Joiner
  dashOffset : ℚ
  dashes : List ℚ
deriving DecidableEq

/-- The default draw state of `canvas.go`: opaque black fill, transparent
stroke, width 1, butt capper, (unbounded) miter joiner with bevel gap joiner,
no dashes. -/
def defaultDrawState : drawState :=
  { fillColor := Black
    strokeColor := Transparent
    strokeWidth := 1
    strokeCapper := Capper.butt
    strokeJoiner := Joiner.miter none Joiner.bevel
    dashOffset := 0
    dashes := [] }

/-- A path layer: a path together with the draw-state snapshot taken when it
was recorded (`pathLayer` in `canvas.go`). -/
structure pathLayer where
  path : Path
  ds : drawState
deriving DecidableEq

/-- Modelled from the spec: the external `Text` collaborator, as far as the
layer stack observes it — the set of font resources it references, identified
by identity (pointer identity in the source, natural-number identifiers
here). -/
structure Text where
  fonts : List Nat
deriving DecidableEq

/-- A recorded layer: either a path layer or a text layer with position and
rotation (`layer`, `pathLayer`, `textLayer` in `canvas.go`). -/
inductive layer where
  | path (l : pathLayer)
  | text (t : Text) (x y rot : ℚ)
deriving DecidableEq

/-- The canvas (`C` in `canvas.go`): dimensions in millimeters, the append-only
layer stack, the set of referenced fonts, and the current draw state. -/
structure C where
  w : ℚ
  h : ℚ
  layers : List layer
  fonts : List Nat
  ds : drawState
deriving DecidableEq

/-- Constructor `New` creates a canvas with the given dimensions, no layers, no fonts and
the default draw state. -/
def New (w h : ℚ) : C := ⟨w, h, [], [], defaultDrawState⟩

/-- Setter `C.SetFillColor` updates the current fill color. -/
def C.SetFillColor (c : C) (color : RGBA) : C :=
  { c with ds := { c.ds with fillColor := color } }

/-- Setter `C.SetStrokeColor` updates the current stroke color. -/
def C.SetStrokeColor (c : C) (color : RGBA) : C :=
  { c with ds := { c.ds with strokeColor := color } }

/-- Setter `C.SetStrokeWidth` updates the current stroke width. -/
def C.SetStrokeWidth (c : C) (width : ℚ) : C :=
  { c with ds := { c.ds with strokeWidth := width } }

/-- Setter `C.SetStrokeCapper` updates the current capper. -/
def C.SetStrokeCapper (c : C) (capper : Capper) : C :=
  { c with ds := { c.ds with strokeCapper := capper } }

/-- Setter `C.SetStrokeJoiner` updates the current joiner. -/
def C.SetStrokeJoiner (c : C) (joiner : Joiner) : C :=
  { c with ds := { c.ds with strokeJoiner := joiner } }

/-- Setter `C.SetDashes` updates the current dash offset and dash pattern. -/
def C.SetDashes (c : C) (dashOffset : ℚ) (dashes : List ℚ) : C :=
  { c with ds := { c.ds with dashOffset := dashOffset, dashes := dashes } }

/-- Recording `C.DrawPath` records a path layer: a non-empty path is copied, translated
by the given position and appended together with a snapshot of the current
draw state; an empty path is dropped entirely. -/
def C.DrawPath (c : C) (x y : ℚ) (path : Path) : C :=
  if path.Empty then c
  else
    { c with layers := c.layers ++ [layer.path ⟨(path.Copy).Translate x y, c.ds⟩] }

/-- Insertion into the canvas font set (`c.fonts[font] = true` on the Go map):
a font already present leaves the set unchanged. -/
def insertFont (fs : List Nat) (f : Nat) : List Nat :=
  if f ∈ fs then fs else fs ++ [f]

/-- Registration of every font referenced by a text object into the canvas
font set. -/
def registerFonts (fs : List Nat) (ts : List Nat) : List Nat :=
  ts.foldl insertFont fs

/-- Recording `C.DrawText` registers the text's fonts into the canvas font set and
appends a text layer (with rotation 0) unconditionally. -/
def C.DrawText (c : C) (x y : ℚ) (text : Text) : C :=
  { c with
      fonts := registerFonts c.fonts text.fonts
      layers := c.layers ++ [layer.text text x y 0] }

/-- Millimeters per point (`MmPerPt` in `canvas.go`). -/
def MmPerPt : ℚ := 0.3527777777777778

/-- Points per millimeter (`PtPerMm` in `canvas.go`). -/
def PtPerMm : ℚ := 2.8346456692913384

/-- Millimeters per inch (`MmPerInch` in `canvas.go`). -/
def MmPerInch : ℚ := 25.4

/-- Inches per millimeter (`InchPerMm` in `canvas.go`). -/
def InchPerMm : ℚ := 1 / 25.4

/-- Go's `int(x)` conversion on a rational value: truncation toward zero. -/
def goInt (q : ℚ) : Int := if 0 ≤ q then ⌊q⌋ else ⌈q⌉

/-- The raster output: integer pixel dimensions, the background color painted
over the whole buffer before any layer, and the layers subsequently painted in
stack order (scan conversion itself is delegated to the external
rasterizer). -/
structure RGBAImage where
  width : Int
  height : Int
  background : RGBA
  painted : List layer
deriving DecidableEq

/-- Export `C.WriteImage` allocates a pixel buffer of `int(w*dpm+0.5)` by
`int(h*dpm+0.5)` pixels where `dpm = dpi * InchPerMm`, paints it fully opaque
white, and then paints every layer in stack order. -/
def C.WriteImage (c : C) (dpi : ℚ) : RGBAImage :=
  let dpm := dpi * InchPerMm
  { width := goInt (c.w * dpm + 0.5)
    height := goInt (c.h * dpm + 0.5)
    background := White
    painted := c.layers }

/-- A primitive operation emitted to the page-description (PDF) sink: the
state-setting calls of the external page writer, and raw content-stream
writes. -/
inductive PDFOp where
  | setFillColor (c : RGBA)
  | setStrokeColor (c : RGBA)
  | setLineWidth (w : ℚ)
  | setLineCap (c : Capper)
  | setLineJoin (j : Joiner)
  | setDashes (offset : ℚ) (d : List ℚ)
  | write (s : List Char)
deriving DecidableEq

/-- Whether the fill is active for a layer: fill color alpha is nonzero. -/
def fillActive (l : pathLayer) : Bool := l.ds.fillColor.a ≠ 0

/-- Whether the stroke is active for a layer: stroke color alpha is nonzero
and the stroke width is positive. -/
def strokeActive (l : pathLayer) : Bool :=
  l.ds.strokeColor.a ≠ 0 && 0 < l.ds.strokeWidth

/-- The page-description backend's fallback condition on the joiner
(`canvas.go` lines 229-236): the arcs joiner, a miter joiner with a
not-a-number (unbounded) limit, and a miter joiner whose gap joiner is not
bevel are all unsupported by the native stroke operators. -/
def strokeUnsupported : Joiner → Bool
  | Joiner.arcs _ => true
  | Joiner.miter none _ => true
  | Joiner.miter (some _) Joiner.bevel => false
  | Joiner.miter (some _) _ => true
  | _ => false

/-- Closed-path detection of `pathLayer.WritePDF`: the serialized path data is
longer than one byte and its last byte is the close-subpath token `h`. -/
def pdfClosed (p : Path) : Bool :=
  1 < p.ToPDF.length && p.ToPDF.getLast? = some 'h'

/-- The serialized path data after `pathLayer.WritePDF` strips a trailing
close-subpath token (the last two bytes, the separating blank and the `h`). -/
def pdfStripped (p : Path) : List Char :=
  if pdfClosed p then p.ToPDF.dropLast.dropLast else p.ToPDF

/-- The explicit stroke geometry built by the page-description fallback: the
path is copied, dashed when a dash pattern is present, and then converted to
an outline by the stroking kernel. -/
def strokePathOf (l : pathLayer) : Path :=
  let p := l.path.Copy
  let p := if 0 < l.ds.dashes.length then p.Dash l.ds.dashOffset l.ds.dashes else p
  p.Stroke l.ds.strokeWidth l.ds.strokeCapper l.ds.strokeJoiner

/-- The even-odd marker byte appended to a paint operator when the global fill
rule is even-odd. -/
def evenOddStar : List PDFOp :=
  if FillRule = FillRuleKind.EvenOdd then [PDFOp.write ['*']] else []

/-- Compilation `pathLayer.WritePDF` is the page-description compilation of a single path
layer, transcribed from `canvas.go` lines 212-314.  A layer with neither fill
nor stroke active emits nothing.  If the fill and stroke alphas differ or the
joiner is unsupported, fill and stroke are emitted as two separate passes; the
stroke pass is a filled outline when the joiner is unsupported and a native
stroke operator otherwise.  Otherwise a single native paint operator is
emitted, using the close-and-paint variants `s`/`b` for serialized data ending
in the close-subpath token. -/
def pathLayer.WritePDF (l : pathLayer) : List PDFOp :=
  if !fillActive l && !strokeActive l then []
  else
    let data := pdfStripped l.path
    let differentAlpha :=
      fillActive l && strokeActive l && decide (l.ds.fillColor.a ≠ l.ds.strokeColor.a)
    if differentAlpha || strokeUnsupported l.ds.strokeJoiner then
      [PDFOp.setFillColor l.ds.fillColor, PDFOp.write [blank], PDFOp.write data,
        PDFOp.write [blank, 'f']] ++ evenOddStar ++
      (if strokeUnsupported l.ds.strokeJoiner then
        [PDFOp.setFillColor l.ds.strokeColor, PDFOp.write [blank],
          PDFOp.write (strokePathOf l).ToPDF, PDFOp.write [blank, 'f']] ++ evenOddStar
      else
        [PDFOp.setStrokeColor l.ds.strokeColor, PDFOp.setLineWidth l.ds.strokeWidth,
          PDFOp.setLineCap l.ds.strokeCapper, PDFOp.setLineJoin l.ds.strokeJoiner,
          PDFOp.setDashes l.ds.dashOffset l.ds.dashes, PDFOp.write [blank],
          PDFOp.write data,
          PDFOp.write (if pdfClosed l.path then [blank, 's'] else [blank, 'S'])] ++
        evenOddStar)
    else
      (if fillActive l then [PDFOp.setFillColor l.ds.fillColor] else []) ++
      (if strokeActive l then
        [PDFOp.setStrokeColor l.ds.strokeColor, PDFOp.setLineWidth l.ds.strokeWidth,
          PDFOp.setLineCap l.ds.strokeCapper, PDFOp.setLineJoin l.ds.strokeJoiner,
          PDFOp.setDashes l.ds.dashOffset l.ds.dashes]
      else []) ++
      [PDFOp.write [blank], PDFOp.write l.path.ToPDF] ++
      (if fillActive l && strokeActive l then
        [PDFOp.write (if pdfClosed l.path then [blank, 'b'] else [blank, 'B'])]
      else if fillActive l then [PDFOp.write [blank, 'f']]
      else [PDFOp.write (if pdfClosed l.path then [blank, 's'] else [blank, 'S'])]) ++
      (if fillActive l && decide (FillRule = FillRuleKind.EvenOdd) then
        [PDFOp.write ['*']]
      else [])

/-- The five native paint-operator byte sequences of the page-description
backend: fill, open and closed stroke, open and closed fill-and-stroke. -/
def paintTokens : List (List Char) :=
  [[blank, 'f'], [blank, 's'], [blank, 'S'], [blank, 'b'], [blank, 'B']]

/-- Select a written chunk when it is one of the native paint operators. -/
def paintChunk? (o : PDFOp) : Option (List Char) :=
  match o with
  | PDFOp.write s => if s ∈ paintTokens then some s else none
  | _ => none

/-- The sequence of native paint operators among the emitted operations. -/
def paintWrites (ops : List PDFOp) : List (List Char) :=
  ops.filterMap paintChunk?

/-- A primitive operation emitted to the PostScript-like (EPS) sink. -/
inductive EPSOp where
  | setColor (c : RGBA)
  | write (s : List Char)
deriving DecidableEq

/-- Compilation `pathLayer.WriteEPS` is the PostScript-like compilation of a single path
layer, transcribed from `canvas.go` lines 316-323: it sets the fill color,
writes the serialized path and a `fill` operator, and consults no other style
field — strokes and dashes are silently ignored, and no input can raise an
error. -/
def pathLayer.WriteEPS (l : pathLayer) : List EPSOp :=
  [EPSOp.setColor l.ds.fillColor, EPSOp.write [blank], EPSOp.write l.path.ToPS,
    EPSOp.write [blank, 'f', 'i', 'l', 'l']]

/-- A chunk of SVG output for a path element, one per formatted write of
`pathLayer.WriteSVG`. -/
inductive SVGChunk where
  | pathData (d : List Char)
  | strokeStyle (c : RGBA)
  | strokeWidth (w : ℚ)
  | linecapRound
  | linecapSquare
  | linejoinBevel
  | linejoinRound
  | linejoinArcs
  | linejoinMiterClip
  | miterlimit (q : ℚ)
  | dasharray (d : List ℚ)
  | dashoffset (q : ℚ)
  | fillStyle (c : RGBA)
  | fillNoneStyle
  | fillRuleEvenOdd
  | fillAttr (c : RGBA)
  | fillAttrNone
  | closeTag
deriving DecidableEq

/-- Fatal errors of the markup backend, modelling the source's two abort
messages for a line cap or line join outside the declared variant set. -/
inductive SVGError where
  | lineCapNotSupported
  | lineJoinNotSupported
deriving DecidableEq

/-- The line-cap attribute chunks of the markup backend: round and square are
emitted, butt is the default and omitted, and any capper outside the declared
variant set is a fatal error. -/
def svgCapChunks : Capper → Except SVGError (List SVGChunk)
  | Capper.round => Except.ok [SVGChunk.linecapRound]
  | Capper.square => Except.ok [SVGChunk.linecapSquare]
  | Capper.butt => Except.ok []
  | Capper.other => Except.error SVGError.lineCapNotSupported

/-- The line-join attribute chunks of the markup backend: bevel, round and
arcs are emitted directly; a miter joiner with a finite limit becomes a
clipped miter with an explicit limit attribute when the limit differs from
the format default 4; an unbounded miter is the format default and omitted;
any joiner outside the declared variant set is a fatal error. -/
def svgJoinChunks : Joiner → Except SVGError (List SVGChunk)
  | Joiner.bevel => Except.ok [SVGChunk.linejoinBevel]
  | Joiner.round => Except.ok [SVGChunk.linejoinRound]
  | Joiner.arcs _ => Except.ok [SVGChunk.linejoinArcs]
  | Joiner.miter (some limit) _ =>
      Except.ok ([SVGChunk.linejoinMiterClip] ++
        (if limit ≠ 4 then [SVGChunk.miterlimit limit] else []))
  | Joiner.miter none _ => Except.ok []
  | Joiner.other => Except.error SVGError.lineJoinNotSupported

/-- Compilation `pathLayer.WriteSVG` is the markup compilation of a single path layer,
transcribed from `canvas.go` lines 150-210.  The path is copied, reflected
about the horizontal axis and translated by the canvas height; stroke style
attributes are emitted only when the stroke is active; an unsupported capper
or joiner aborts the export with a fatal error (the source's `panic`),
modelled as `Except.error`. -/
def pathLayer.WriteSVG (l : pathLayer) (h : ℚ) : Except SVGError (List SVGChunk) :=
  let p := ((l.path.Copy).Scale 1 (-1)).Translate 0 h
  if strokeActive l then
    match svgCapChunks l.ds.strokeCapper, svgJoinChunks l.ds.strokeJoiner with
    | Except.error e, _ => Except.error e
    | _, Except.error e => Except.error e
    | Except.ok cc, Except.ok jc =>
        Except.ok ([SVGChunk.pathData p.ToSVG, SVGChunk.strokeStyle l.ds.strokeColor] ++
          (if l.ds.strokeWidth ≠ 1 then [SVGChunk.strokeWidth l.ds.strokeWidth] else []) ++
          cc ++ jc ++
          (if 0 < l.ds.dashes.length then
            [SVGChunk.dasharray l.ds.dashes] ++
              (if 0 < l.ds.dashOffset then [SVGChunk.dashoffset l.ds.dashOffset] else [])
          else []) ++
          (if l.ds.fillColor ≠ Black then
            (if l.ds.fillColor.a ≠ 0 then [SVGChunk.fillStyle l.ds.fillColor]
             else [SVGChunk.fillNoneStyle])
          else []) ++
          (if FillRule = FillRuleKind.EvenOdd then [SVGChunk.fillRuleEvenOdd] else []) ++
          [SVGChunk.closeTag])
  else
    Except.ok ([SVGChunk.pathData p.ToSVG] ++
      (if l.ds.fillColor ≠ Black then
        (if l.ds.fillColor.a ≠ 0 then [SVGChunk.fillAttr l.ds.fillColor]
         else [SVGChunk.fillAttrNone])
      else []) ++
      [SVGChunk.closeTag])

/-- Whether a chunk is a dash-array attribute. -/
def isDasharrayChunk : SVGChunk → Bool
  | SVGChunk.dasharray _ => true
  | _ => false

/-- Whether a chunk is a dash-offset attribute. -/
def isDashoffsetChunk : SVGChunk → Bool
  | SVGChunk.dashoffset _ => true
  | _ => false

/-- Whether a chunk list contains a dash-array attribute. -/
def hasDasharray (cs : List SVGChunk) : Bool := cs.any isDasharrayChunk

/-- Whether a chunk list contains a dash-offset attribute. -/
def hasDashoffset (cs : List SVGChunk) : Bool := cs.any isDashoffsetChunk

/-- The fallback condition exactly as the specification's decision rule states
it: unsupported iff the joiner is arcs, or is a miter with a finite limit
whose gap joiner is not bevel — so that, per the spec, an unbounded
(not-a-number limit) miter would count as natively expressible.  This is the
claim-side rule, to be compared with the source's `strokeUnsupported`. -/
def specStrokeUnsupported : Joiner → Bool
  | Joiner.arcs _ => true
  | Joiner.miter (some _) Joiner.bevel => false
  | Joiner.miter (some _) _ => true
  | _ => false

/-- Concrete closed square path: its PDF serialization ends in the
close-subpath token. -/
def squarePath : Path :=
  Path.mk [Segment.moveTo 0 0, Segment.lineTo 10 0, Segment.lineTo 10 10, Segment.close]

/-- Concrete open path: its PDF serialization does not end in the
close-subpath token. -/
def openPath : Path := Path.mk [Segment.moveTo 0 0, Segment.lineTo 10 0]

/-- Concrete layer with an unbounded (not-a-number limit) miter joiner, active
fill and stroke with equal alphas. -/
def layerMU : pathLayer :=
  ⟨squarePath,
    { fillColor := ⟨255, 0, 0, 255⟩, strokeColor := ⟨0, 0, 255, 255⟩, strokeWidth := 1,
      strokeCapper := Capper.butt, strokeJoiner := Joiner.miter none Joiner.bevel,
      dashOffset := 0, dashes := [] }⟩

/-- Concrete layer with active fill and stroke of different alphas and a
supported (bevel) joiner. -/
def layerDiffAlpha : pathLayer :=
  ⟨openPath,
    { fillColor := ⟨255, 0, 0, 255⟩, strokeColor := ⟨0, 0, 255, 128⟩, strokeWidth := 1,
      strokeCapper := Capper.butt, strokeJoiner := Joiner.bevel,
      dashOffset := 0, dashes := [] }⟩

/-- Concrete layer with an active stroke whose color differs from the fill
color, for the PostScript-like backend. -/
def layerEPS : pathLayer :=
  ⟨openPath,
    { fillColor := ⟨0, 0, 0, 255⟩, strokeColor := ⟨255, 0, 0, 255⟩, strokeWidth := 2,
      strokeCapper := Capper.butt, strokeJoiner := Joiner.bevel,
      dashOffset := 0, dashes := [] }⟩

/-- Concrete layer with a supported (bevel) joiner and equal fill and stroke
alphas over a closed path. -/
def layerBevel : pathLayer :=
  ⟨squarePath,
    { fillColor := ⟨255, 0, 0, 255⟩, strokeColor := ⟨0, 0, 255, 255⟩, strokeWidth := 1,
      strokeCapper := Capper.butt, strokeJoiner := Joiner.bevel,
      dashOffset := 0, dashes := [] }⟩

/-- Concrete layer with an arcs joiner (unsupported by the page-description
native operators), active fill and stroke. -/
def layerArcs : pathLayer :=
  ⟨openPath,
    { fillColor := ⟨255, 0, 0, 255⟩, strokeColor := ⟨0, 0, 255, 255⟩, strokeWidth := 1,
      strokeCapper := Capper.butt, strokeJoiner := Joiner.arcs none,
      dashOffset := 0, dashes := [] }⟩

/-- Concrete stroke-only layer (transparent fill) over a closed path with a
supported joiner. -/
def layerStrokeOnly : pathLayer :=
  ⟨squarePath,
    { fillColor := ⟨0, 0, 0, 0⟩, strokeColor := ⟨0, 0, 255, 255⟩, strokeWidth := 1,
      strokeCapper := Capper.butt, strokeJoiner := Joiner.bevel,
      dashOffset := 0, dashes := [] }⟩

/-- Concrete layer whose capper is outside the declared variant set. -/
def layerCapOther : pathLayer :=
  ⟨openPath,
    { fillColor := ⟨0, 0, 0, 255⟩, strokeColor := ⟨0, 0, 255, 255⟩, strokeWidth := 1,
      strokeCapper := Capper.other, strokeJoiner := Joiner.bevel,
      dashOffset := 0, dashes := [] }⟩

/-- Concrete dashed layer with a positive dash offset and supported cap and
join, for the markup backend. -/
def layerDashed : pathLayer :=
  ⟨openPath,
    { fillColor := ⟨0, 0, 0, 255⟩, strokeColor := ⟨0, 0, 255, 255⟩, strokeWidth := 1,
      strokeCapper := Capper.butt, strokeJoiner := Joiner.bevel,
      dashOffset := 1, dashes := [2, 1] }⟩

/-- Concrete pair of draw states sharing a fill color but differing in every
stroke field, for the PostScript-like backend. -/
def dsStrokeRed : drawState :=
  { fillColor := ⟨0, 0, 0, 255⟩, strokeColor := ⟨255, 0, 0, 255⟩, strokeWidth := 3,
    strokeCapper := Capper.round, strokeJoiner := Joiner.round,
    dashOffset := 1, dashes := [1] }

/-- Property of a byte sequence that it is empty or does not begin with the
blank separator; every serialized path has it, which separates path data from
the two-byte paint-operator tokens. -/
def headOk (s : List Char) : Prop := s = [] ∨ ∃ c t, s = c :: t ∧ c ≠ blank

lemma decDigit_ne_blank (n : Nat) : decDigit n ≠ blank := by
  unfold decDigit
  split <;> decide

lemma natCharsAux_headOk (fuel n : Nat) : headOk (natCharsAux fuel n) := by
  induction fuel generalizing n with
  | zero => exact Or.inl rfl
  | succ fuel ih =>
    unfold natCharsAux
    split
    · exact Or.inr ⟨_, _, rfl, decDigit_ne_blank n⟩
    · rcases ih (n / 10) with h | ⟨c, t, h, hc⟩
      · rw [h]
        exact Or.inr ⟨_, _, rfl, decDigit_ne_blank (n % 10)⟩
      · rw [h]
        exact Or.inr ⟨c, t ++ [decDigit (n % 10)], by simp, hc⟩

lemma natChars_strict (n : Nat) : ∃ c t, natChars n = c :: t ∧ c ≠ blank := by
  unfold natChars natCharsAux
  split
  · exact ⟨_, _, rfl, decDigit_ne_blank n⟩
  · rcases natCharsAux_headOk n (n / 10) with h | ⟨c, t, h, hc⟩
    · rw [h]
      exact ⟨_, _, rfl, decDigit_ne_blank (n % 10)⟩
    · rw [h]
      exact ⟨c, t ++ [decDigit (n % 10)], by simp, hc⟩

lemma intChars_strict (i : Int) : ∃ c t, intChars i = c :: t ∧ c ≠ blank := by
  unfold intChars
  split
  · exact ⟨'-', natChars i.natAbs, rfl, by decide⟩
  · exact natChars_strict i.natAbs

lemma ratTok_strict (q : ℚ) : ∃ c t, ratTok q = c :: t ∧ c ≠ blank := by
  unfold ratTok
  obtain ⟨c, t, h, hc⟩ := intChars_strict q.num
  rw [h]
  exact ⟨c, t ++ '/' :: natChars q.den, by simp, hc⟩

lemma segTokPDF_strict (s : Segment) : ∃ c t, segTokPDF s = c :: t ∧ c ≠ blank := by
  cases s with
  | moveTo x y =>
    obtain ⟨c, t, h, hc⟩ := ratTok_strict x
    exact ⟨c, t ++ blank :: ratTok y ++ [blank, 'm'], by simp [segTokPDF, h], hc⟩
  | lineTo x y =>
    obtain ⟨c, t, h, hc⟩ := ratTok_strict x
    exact ⟨c, t ++ blank :: ratTok y ++ [blank, 'l'], by simp [segTokPDF, h], hc⟩
  | quadTo cpx cpy x y =>
    obtain ⟨c, t, h, hc⟩ := ratTok_strict cpx
    exact ⟨c, t ++ blank :: ratTok cpy ++ blank :: ratTok x ++ blank :: ratTok y ++ [blank, 'v'],
      by simp [segTokPDF, h], hc⟩
  | cubeTo c1x c1y c2x c2y x y =>
    obtain ⟨c, t, h, hc⟩ := ratTok_strict c1x
    exact ⟨c, t ++ blank :: ratTok c1y ++ blank :: ratTok c2x ++ blank :: ratTok c2y ++
      blank :: ratTok x ++ blank :: ratTok y ++ [blank, 'c'], by simp [segTokPDF, h], hc⟩
  | arcTo rx ry rot x y =>
    obtain ⟨c, t, h, hc⟩ := ratTok_strict rx
    exact ⟨c, t ++ blank :: ratTok ry ++ blank :: ratTok rot ++ blank :: ratTok x ++
      blank :: ratTok y ++ [blank, 'a'], by simp [segTokPDF, h], hc⟩
  | close => exact ⟨'h', [], rfl, by decide⟩

lemma pdfSegs_headOk (segs : List Segment) : headOk (pdfSegs segs) := by
  match segs with
  | [] => exact Or.inl rfl
  | [s] =>
    obtain ⟨c, t, h, hc⟩ := segTokPDF_strict s
    exact Or.inr ⟨c, t, by rw [pdfSegs, h], hc⟩
  | s :: s2 :: rest =>
    obtain ⟨c, t, h, hc⟩ := segTokPDF_strict s
    refine Or.inr ⟨c, t ++ blank :: pdfSegs (s2 :: rest), ?_, hc⟩
    show segTokPDF s ++ blank :: pdfSegs (s2 :: rest) = _
    rw [h]
    simp

lemma toPDF_headOk (p : Path) : headOk p.ToPDF := by
  cases p with
  | mk segs => exact pdfSegs_headOk segs
  | stroked p w c j => exact Or.inr ⟨'o', _, rfl, by decide⟩
  | dashed p o d => exact Or.inr ⟨'d', _, rfl, by decide⟩

lemma headOk_dropLast {s : List Char} (h : headOk s) : headOk s.dropLast := by
  rcases h with rfl | ⟨c, t, rfl, hc⟩
  · exact Or.inl rfl
  · cases t with
    | nil => exact Or.inl rfl
    | cons d u => exact Or.inr ⟨c, (d :: u).dropLast, rfl, hc⟩

lemma pdfStripped_headOk (p : Path) : headOk (pdfStripped p) := by
  unfold pdfStripped
  split
  · exact headOk_dropLast (headOk_dropLast (toPDF_headOk p))
  · exact toPDF_headOk p

lemma mem_paintTokens_blank {s : List Char} (h : s ∈ paintTokens) :
    ∃ t, s = blank :: t := by
  simp only [paintTokens, List.mem_cons, List.mem_singleton] at h
  rcases h with rfl | rfl | rfl | rfl | rfl | h
  · exact ⟨_, rfl⟩
  · exact ⟨_, rfl⟩
  · exact ⟨_, rfl⟩
  · exact ⟨_, rfl⟩
  · exact ⟨_, rfl⟩
  · cases h

lemma paintChunk_headOk {s : List Char} (h : headOk s) :
    paintChunk? (PDFOp.write s) = none := by
  show (if s ∈ paintTokens then some s else none) = none
  rw [if_neg]
  intro hmem
  obtain ⟨t, ht⟩ := mem_paintTokens_blank hmem
  rcases h with rfl | ⟨c, u, rfl, hc⟩
  · simp at ht
  · injection ht with h1 h2
    exact hc h1

@[simp] lemma paintChunk_toPDF (p : Path) : paintChunk? (PDFOp.write p.ToPDF) = none :=
  paintChunk_headOk (toPDF_headOk p)

@[simp] lemma paintChunk_stripped (p : Path) :
    paintChunk? (PDFOp.write (pdfStripped p)) = none :=
  paintChunk_headOk (pdfStripped_headOk p)

@[simp] lemma paintChunk_setFillColor (c : RGBA) :
    paintChunk? (PDFOp.setFillColor c) = none := rfl

@[simp] lemma paintChunk_setStrokeColor (c : RGBA) :
    paintChunk? (PDFOp.setStrokeColor c) = none := rfl

@[simp] lemma paintChunk_setLineWidth (w : ℚ) :
    paintChunk? (PDFOp.setLineWidth w) = none := rfl

@[simp] lemma paintChunk_setLineCap (c : Capper) :
    paintChunk? (PDFOp.setLineCap c) = none := rfl

@[simp] lemma paintChunk_setLineJoin (j : Joiner) :
    paintChunk? (PDFOp.setLineJoin j) = none := rfl

@[simp] lemma paintChunk_setDashes (o : ℚ) (d : List ℚ) :
    paintChunk? (PDFOp.setDashes o d) = none := rfl

@[simp] lemma paintChunk_blank : paintChunk? (PDFOp.write [blank]) = none := by decide

@[simp] lemma paintChunk_star : paintChunk? (PDFOp.write ['*']) = none := by decide

@[simp] lemma paintChunk_f : paintChunk? (PDFOp.write [blank, 'f']) = some [blank, 'f'] := by
  decide

@[simp] lemma paintChunk_s : paintChunk? (PDFOp.write [blank, 's']) = some [blank, 's'] := by
  decide

@[simp] lemma paintChunk_S2 : paintChunk? (PDFOp.write [blank, 'S']) = some [blank, 'S'] := by
  decide

@[simp] lemma paintChunk_b : paintChunk? (PDFOp.write [blank, 'b']) = some [blank, 'b'] := by
  decide

@[simp] lemma paintChunk_B2 : paintChunk? (PDFOp.write [blank, 'B']) = some [blank, 'B'] := by
  decide

lemma mem_insertFont {fs : List Nat} {a : Nat} (f : Nat) (h : a ∈ fs) :
    a ∈ insertFont fs f := by
  unfold insertFont
  split
  · exact h
  · simp [h]

lemma self_mem_insertFont (fs : List Nat) (f : Nat) : f ∈ insertFont fs f := by
  unfold insertFont
  split
  · assumption
  · simp

lemma insertFont_of_mem {fs : List Nat} {f : Nat} (h : f ∈ fs) : insertFont fs f = fs := by
  unfold insertFont
  exact if_pos h

lemma registerFonts_cons (fs : List Nat) (t : Nat) (ts : List Nat) :
    registerFonts fs (t :: ts) = registerFonts (insertFont fs t) ts := rfl

lemma mem_registerFonts_left (a : Nat) (fs ts : List Nat) (h : a ∈ fs) :
    a ∈ registerFonts fs ts := by
  induction ts generalizing fs with
  | nil => exact h
  | cons t ts ih =>
    rw [registerFonts_cons]
    exact ih (insertFont fs t) (mem_insertFont t h)

lemma mem_registerFonts_right (a : Nat) (fs ts : List Nat) (h : a ∈ ts) :
    a ∈ registerFonts fs ts := by
  induction ts generalizing fs with
  | nil => cases h
  | cons t ts ih =>
    rw [registerFonts_cons]
    rcases List.mem_cons.mp h with rfl | h2
    · exact mem_registerFonts_left a _ ts (self_mem_insertFont fs a)
    · exact ih (insertFont fs t) h2

lemma registerFonts_of_subset (fs ts : List Nat) (h : ∀ a ∈ ts, a ∈ fs) :
    registerFonts fs ts = fs := by
  induction ts with
  | nil => rfl
  | cons t ts ih =>
    rw [registerFonts_cons, insertFont_of_mem (h t (List.mem_cons_self t ts))]
    exact ih (fun a ha => h a (List.mem_cons_of_mem t ha))

lemma registerFonts_idem (fs ts : List Nat) :
    registerFonts (registerFonts fs ts) ts = registerFonts fs ts :=
  registerFonts_of_subset _ _ (fun a ha => mem_registerFonts_right a fs ts ha)

lemma svgCapChunks_spec {c : Capper} (h : c ≠ Capper.other) :
    ∃ cc, svgCapChunks c = Except.ok cc ∧ hasDasharray cc = false ∧
      hasDashoffset cc = false := by
  cases c with
  | butt => exact ⟨[], rfl, rfl, rfl⟩
  | round => exact ⟨_, rfl, rfl, rfl⟩
  | square => exact ⟨_, rfl, rfl, rfl⟩
  | other => exact absurd rfl h

lemma svgJoinChunks_spec {j : Joiner} (h : j ≠ Joiner.other) :
    ∃ jc, svgJoinChunks j = Except.ok jc ∧ hasDasharray jc = false ∧
      hasDashoffset jc = false := by
  cases j with
  | bevel => exact ⟨_, rfl, rfl, rfl⟩
  | round => exact ⟨_, rfl, rfl, rfl⟩
  | arcs lim => exact ⟨_, rfl, rfl, rfl⟩
  | other => exact absurd rfl h
  | miter lim gap =>
    cases lim with
    | none => exact ⟨[], rfl, rfl, rfl⟩
    | some q =>
      refine ⟨_, rfl, ?_, ?_⟩ <;>
      · simp only [hasDasharray, hasDashoffset, List.any_append, List.any_cons, List.any_nil]
        split <;> rfl

@[simp] lemma evenOddStar_nil : evenOddStar = [] := rfl

@[simp] lemma fillRule_decide : decide (FillRule = FillRuleKind.EvenOdd) = false := rfl

lemma paintWrites_writePDF (l : pathLayer) :
    paintWrites (pathLayer.WritePDF l) =
      if !fillActive l && !strokeActive l then []
      else if (fillActive l && strokeActive l &&
          decide (l.ds.fillColor.a ≠ l.ds.strokeColor.a)) ||
          strokeUnsupported l.ds.strokeJoiner then
        if strokeUnsupported l.ds.strokeJoiner then [[blank, 'f'], [blank, 'f']]
        else [[blank, 'f'], if pdfClosed l.path then [blank, 's'] else [blank, 'S']]
      else if fillActive l && strokeActive l then
        [if pdfClosed l.path then [blank, 'b'] else [blank, 'B']]
      else if fillActive l then [[blank, 'f']]
      else [if pdfClosed l.path then [blank, 's'] else [blank, 'S']] := by
  unfold pathLayer.WritePDF
  cases hf : fillActive l <;> cases hs : strokeActive l <;>
    cases hu : strokeUnsupported l.ds.strokeJoiner <;>
    cases hcl : pdfClosed l.path <;>
    by_cases hd : l.ds.fillColor.a = l.ds.strokeColor.a <;>
    simp [hf, hs, hu, hcl, hd, paintWrites, List.filterMap_append, List.filterMap_cons]

lemma any_ite_chunks (P : Prop) [Decidable P] (a b : List SVGChunk) (f : SVGChunk → Bool) :
    (if P then a else b).any f = if P then a.any f else b.any f := by
  split <;> rfl

@[simp] lemma isDA_pathData (d : List Char) : isDasharrayChunk (SVGChunk.pathData d) = false := rfl

@[simp] lemma isDA_strokeStyle (c : RGBA) : isDasharrayChunk (SVGChunk.strokeStyle c) = false := rfl

@[simp] lemma isDA_strokeWidth (w : ℚ) : isDasharrayChunk (SVGChunk.strokeWidth w) = false := rfl

@[simp] lemma isDA_dasharray (d : List ℚ) : isDasharrayChunk (SVGChunk.dasharray d) = true := rfl

@[simp] lemma isDA_dashoffset (q : ℚ) : isDasharrayChunk (SVGChunk.dashoffset q) = false := rfl

@[simp] lemma isDA_fillStyle (c : RGBA) : isDasharrayChunk (SVGChunk.fillStyle c) = false := rfl

@[simp] lemma isDA_fillNoneStyle : isDasharrayChunk SVGChunk.fillNoneStyle = false := rfl

@[simp] lemma isDA_fillRuleEvenOdd : isDasharrayChunk SVGChunk.fillRuleEvenOdd = false := rfl

@[simp] lemma isDA_closeTag : isDasharrayChunk SVGChunk.closeTag = false := rfl

@[simp] lemma isDO_pathData (d : List Char) : isDashoffsetChunk (SVGChunk.pathData d) = false := rfl

@[simp] lemma isDO_strokeStyle (c : RGBA) : isDashoffsetChunk (SVGChunk.strokeStyle c) = false := rfl

@[simp] lemma isDO_strokeWidth (w : ℚ) : isDashoffsetChunk (SVGChunk.strokeWidth w) = false := rfl

@[simp] lemma isDO_dasharray (d : List ℚ) : isDashoffsetChunk (SVGChunk.dasharray d) = false := rfl

@[simp] lemma isDO_dashoffset (q : ℚ) : isDashoffsetChunk (SVGChunk.dashoffset q) = true := rfl

@[simp] lemma isDO_fillStyle (c : RGBA) : isDashoffsetChunk (SVGChunk.fillStyle c) = false := rfl

@[simp] lemma isDO_fillNoneStyle : isDashoffsetChunk SVGChunk.fillNoneStyle = false := rfl

@[simp] lemma isDO_fillRuleEvenOdd : isDashoffsetChunk SVGChunk.fillRuleEvenOdd = false := rfl

@[simp] lemma isDO_closeTag : isDashoffsetChunk SVGChunk.closeTag = false := rfl

/-- Claim C1, counterexample: the claim's decision rule (`specStrokeUnsupported`)
declares an unbounded (not-a-number limit) miter joiner natively expressible,
and the claim asserts that a layer with such a joiner and equal fill and stroke
alphas is emitted with native operators.  On the code, at the concrete layer
`layerMU` (unbounded miter, equal alphas, fill and stroke active), the
page-description backend emits the explicit two-path fallback — two separate
filled-path operators — and no native stroke or combined operator. -/
theorem C1_counterexample :
    specStrokeUnsupported (Joiner.miter none Joiner.bevel) = false ∧
    layerMU.ds.strokeJoiner = Joiner.miter none Joiner.bevel ∧
    fillActive layerMU = true ∧ strokeActive layerMU = true ∧
    layerMU.ds.fillColor.a = layerMU.ds.strokeColor.a ∧
    paintWrites (pathLayer.WritePDF layerMU) = [[blank, 'f'], [blank, 'f']] := by
  refine ⟨rfl, rfl, rfl, by decide, rfl, by decide⟩

/-- Claim C1, amended: in the page-description backend, for a layer with fill
and stroke both active and equal alphas, native operators are used exactly
when the joiner is supported, where the fallback condition is: unsupported =
(joiner is arcs) OR (joiner is miter with a not-a-number (unbounded) limit) OR
(joiner is miter with a finite limit whose gap joiner is not bevel); in
particular a miter-unbounded layer is emitted with the explicit two-path
fallback, not native operators. -/
theorem C1_amended_native_decision (l : pathLayer) (hf : fillActive l = true)
    (hs : strokeActive l = true) (ha : l.ds.fillColor.a = l.ds.strokeColor.a) :
    paintWrites (pathLayer.WritePDF l) =
      if strokeUnsupported l.ds.strokeJoiner then [[blank, 'f'], [blank, 'f']]
      else [if pdfClosed l.path then [blank, 'b'] else [blank, 'B']] := by
  rw [paintWrites_writePDF]
  cases hu : strokeUnsupported l.ds.strokeJoiner <;> simp [hf, hs, ha, hu]

/-- Claim C1, witness: the amended theorem applied at the concrete layer
`layerBevel` (bevel joiner, equal alphas). -/
theorem C1_amended_witness :
    paintWrites (pathLayer.WritePDF layerBevel) =
      if strokeUnsupported layerBevel.ds.strokeJoiner then [[blank, 'f'], [blank, 'f']]
      else [if pdfClosed layerBevel.path then [blank, 'b'] else [blank, 'B']] :=
  C1_amended_native_decision layerBevel rfl (by decide) rfl

/-- Claim C2, counterexample: at the concrete layer `layerDiffAlpha` (fill and
stroke active, different alphas, supported bevel joiner), the emitted paint
operators are a filled-path operator followed by a NATIVE stroke operator, not
two filled-path operators — refuting the claim that the stroke pass is never a
native stroke operator whenever the alphas differ. -/
theorem C2_counterexample :
    fillActive layerDiffAlpha = true ∧ strokeActive layerDiffAlpha = true ∧
    layerDiffAlpha.ds.fillColor.a ≠ layerDiffAlpha.ds.strokeColor.a ∧
    strokeUnsupported layerDiffAlpha.ds.strokeJoiner = false ∧
    paintWrites (pathLayer.WritePDF layerDiffAlpha) = [[blank, 'f'], [blank, 'S']] ∧
    PDFOp.write [blank, 'S'] ∈ pathLayer.WritePDF layerDiffAlpha := by
  refine ⟨rfl, by decide, by decide, rfl, by decide, by decide⟩

/-- Claim C2, amended: for a layer with fill and stroke both active: when the
joiner is unsupported, fill and stroke are emitted as two separate filled-path
operators and the stroke pass paints the stroking-kernel outline as a plain
fill in the stroke color; when the joiner is supported but the alphas differ,
two separate passes are emitted whose second is a native stroke operator
(`s`/`S`), not a filled outline. -/
theorem C2_amended_two_pass (l : pathLayer) (hf : fillActive l = true)
    (hs : strokeActive l = true) :
    (strokeUnsupported l.ds.strokeJoiner = true →
      pathLayer.WritePDF l =
        [PDFOp.setFillColor l.ds.fillColor, PDFOp.write [blank],
          PDFOp.write (pdfStripped l.path), PDFOp.write [blank, 'f'],
          PDFOp.setFillColor l.ds.strokeColor, PDFOp.write [blank],
          PDFOp.write (strokePathOf l).ToPDF, PDFOp.write [blank, 'f']]) ∧
    (strokeUnsupported l.ds.strokeJoiner = false →
      l.ds.fillColor.a ≠ l.ds.strokeColor.a →
      paintWrites (pathLayer.WritePDF l) =
        [[blank, 'f'], if pdfClosed l.path then [blank, 's'] else [blank, 'S']]) := by
  constructor
  · intro hu
    unfold pathLayer.WritePDF
    simp [hf, hs, hu]
  · intro hu hd
    rw [paintWrites_writePDF]
    simp [hf, hs, hu, hd]

/-- Claim C2, witness: the amended theorem applied at the concrete layer
`layerArcs` (arcs joiner, fill and stroke active). -/
theorem C2_amended_witness :
    (strokeUnsupported layerArcs.ds.strokeJoiner = true →
      pathLayer.WritePDF layerArcs =
        [PDFOp.setFillColor layerArcs.ds.fillColor, PDFOp.write [blank],
          PDFOp.write (pdfStripped layerArcs.path), PDFOp.write [blank, 'f'],
          PDFOp.setFillColor layerArcs.ds.strokeColor, PDFOp.write [blank],
          PDFOp.write (strokePathOf layerArcs).ToPDF, PDFOp.write [blank, 'f']]) ∧
    (strokeUnsupported layerArcs.ds.strokeJoiner = false →
      layerArcs.ds.fillColor.a ≠ layerArcs.ds.strokeColor.a →
      paintWrites (pathLayer.WritePDF layerArcs) =
        [[blank, 'f'], if pdfClosed layerArcs.path then [blank, 's'] else [blank, 'S']]) :=
  C2_amended_two_pass layerArcs rfl (by decide)

/-- Claim C3, counterexample: at the concrete layer `layerEPS`, whose stroke is
active and whose stroke color differs from its fill color, the PostScript-like
backend emits exactly one filled path in the fill color and no operation in
the stroke color — refuting the claim that active strokes are converted to an
outline and filled in the stroke color. -/
theorem C3_counterexample :
    strokeActive layerEPS = true ∧
    layerEPS.ds.strokeColor ≠ layerEPS.ds.fillColor ∧
    pathLayer.WriteEPS layerEPS =
      [EPSOp.setColor layerEPS.ds.fillColor, EPSOp.write [blank],
        EPSOp.write layerEPS.path.ToPS, EPSOp.write [blank, 'f', 'i', 'l', 'l']] ∧
    (pathLayer.WriteEPS layerEPS).all
      (fun o => decide (o ≠ EPSOp.setColor layerEPS.ds.strokeColor)) = true := by
  refine ⟨by decide, by decide, rfl, by decide⟩

/-- Claim C3, amended: the PostScript-like backend flattens every layer to a
single filled path in the fill color; it never raises an error, and it
silently ignores every stroke field (two draw states sharing a fill color
compile identically) — active strokes are dropped, not outlined. -/
theorem C3_amended_eps_fill_only (p : Path) (ds1 ds2 : drawState)
    (hfc : ds1.fillColor = ds2.fillColor) :
    pathLayer.WriteEPS ⟨p, ds1⟩ = pathLayer.WriteEPS ⟨p, ds2⟩ ∧
    pathLayer.WriteEPS ⟨p, ds1⟩ =
      [EPSOp.setColor ds1.fillColor, EPSOp.write [blank], EPSOp.write p.ToPS,
        EPSOp.write [blank, 'f', 'i', 'l', 'l']] :=
  ⟨by simp [pathLayer.WriteEPS, hfc], rfl⟩

/-- Claim C3, witness: the amended theorem applied at the concrete open path
with two draw states differing in every stroke field. -/
theorem C3_amended_witness :
    pathLayer.WriteEPS ⟨openPath, layerEPS.ds⟩ = pathLayer.WriteEPS ⟨openPath, dsStrokeRed⟩ ∧
    pathLayer.WriteEPS ⟨openPath, layerEPS.ds⟩ =
      [EPSOp.setColor layerEPS.ds.fillColor, EPSOp.write [blank], EPSOp.write openPath.ToPS,
        EPSOp.write [blank, 'f', 'i', 'l', 'l']] :=
  C3_amended_eps_fill_only openPath layerEPS.ds dsStrokeRed (by decide)

/-- Claim C4 (confirmed): for every canvas (hence every draw state), every
position and every empty path (zero segments), `DrawPath` leaves the canvas —
in particular its layer stack and layer count — unchanged; no zero-length
layer is stored. -/
theorem C4_empty_path_no_layer (c : C) (x y : ℚ) (p : Path) (h : p.Empty = true) :
    C.DrawPath c x y p = c ∧ (C.DrawPath c x y p).layers.length = c.layers.length := by
  have hd : C.DrawPath c x y p = c := by
    unfold C.DrawPath
    rw [if_pos h]
  exact ⟨hd, by rw [hd]⟩

/-- Claim C4, witness: drawing the zero-segment path on a fresh canvas at a
nonzero position leaves the canvas unchanged. -/
theorem C4_witness :
    Path.Empty (Path.mk []) = true ∧
    C.DrawPath (New 100 50) 3 4 (Path.mk []) = New 100 50 :=
  ⟨by decide, (C4_empty_path_no_layer (New 100 50) 3 4 (Path.mk []) (by decide)).1⟩

/-- Claim C5 (confirmed): in the markup backend, a layer with an active stroke
whose capper is outside the declared variant set (butt, round, square) or
whose joiner is outside the declared variant set (miter, round, bevel, arcs)
aborts the export with a fatal error, never a silent fallback. -/
theorem C5_svg_unsupported_fatal (l : pathLayer) (h : ℚ) (hs : strokeActive l = true)
    (hbad : l.ds.strokeCapper = Capper.other ∨ l.ds.strokeJoiner = Joiner.other) :
    ∃ e, pathLayer.WriteSVG l h = Except.error e := by
  rcases hbad with hc | hj
  · exact ⟨SVGError.lineCapNotSupported, by simp [pathLayer.WriteSVG, hs, hc, svgCapChunks]⟩
  · cases hcap : l.ds.strokeCapper with
    | other =>
      exact ⟨SVGError.lineCapNotSupported,
        by simp [pathLayer.WriteSVG, hs, hcap, svgCapChunks]⟩
    | butt =>
      exact ⟨SVGError.lineJoinNotSupported,
        by simp [pathLayer.WriteSVG, hs, hj, hcap, svgCapChunks, svgJoinChunks]⟩
    | round =>
      exact ⟨SVGError.lineJoinNotSupported,
        by simp [pathLayer.WriteSVG, hs, hj, hcap, svgCapChunks, svgJoinChunks]⟩
    | square =>
      exact ⟨SVGError.lineJoinNotSupported,
        by simp [pathLayer.WriteSVG, hs, hj, hcap, svgCapChunks, svgJoinChunks]⟩

/-- Claim C5, witness: the theorem applied at the concrete layer with an
unrecognized capper. -/
theorem C5_witness : ∃ e, pathLayer.WriteSVG layerCapOther 50 = Except.error e :=
  C5_svg_unsupported_fatal layerCapOther 50 (by decide) (Or.inl rfl)

/-- Claim C6 (confirmed): for every canvas of nonnegative physical size at a
nonnegative resolution, the raster export produces an image of
round(width times dpi over 25.4) by round(height times dpi over 25.4) pixels
(round meaning floor of the value plus one half), with a fully opaque white
background painted before any layer. -/
theorem C6_raster_dimensions (c : C) (dpi : ℚ) (hw : 0 ≤ c.w * dpi) (hh : 0 ≤ c.h * dpi) :
    (c.WriteImage dpi).width = ⌊c.w * dpi / 25.4 + 1 / 2⌋ ∧
    (c.WriteImage dpi).height = ⌊c.h * dpi / 25.4 + 1 / 2⌋ ∧
    (c.WriteImage dpi).background = White ∧ White.a = 255 := by
  have h05 : (0.5 : ℚ) = 1 / 2 := by norm_num
  have h1 : c.w * (dpi * InchPerMm) + 0.5 = c.w * dpi / 25.4 + 1 / 2 := by
    rw [InchPerMm, h05]; ring
  have h2 : c.h * (dpi * InchPerMm) + 0.5 = c.h * dpi / 25.4 + 1 / 2 := by
    rw [InchPerMm, h05]; ring
  have hw2 : 0 ≤ c.w * (dpi * InchPerMm) + 0.5 := by
    rw [h1]
    have hx : 0 ≤ c.w * dpi / 25.4 := div_nonneg hw (by norm_num)
    linarith
  have hh2 : 0 ≤ c.h * (dpi * InchPerMm) + 0.5 := by
    rw [h2]
    have hx : 0 ≤ c.h * dpi / 25.4 := div_nonneg hh (by norm_num)
    linarith
  refine ⟨?_, ?_, rfl, rfl⟩
  · show goInt (c.w * (dpi * InchPerMm) + 0.5) = _
    unfold goInt
    rw [if_pos hw2, h1]
  · show goInt (c.h * (dpi * InchPerMm) + 0.5) = _
    unfold goInt
    rw [if_pos hh2, h2]

/-- Claim C6, witness: a 100 by 50 millimeter canvas at 96 dots per inch
yields a 378 by 189 pixel image with a fully opaque white background. -/
theorem C6_witness :
    (((New 100 50).WriteImage 96).width = ⌊(100 : ℚ) * 96 / 25.4 + 1 / 2⌋ ∧
      ((New 100 50).WriteImage 96).height = ⌊(50 : ℚ) * 96 / 25.4 + 1 / 2⌋ ∧
      ((New 100 50).WriteImage 96).background = White ∧ White.a = 255) ∧
    ((New 100 50).WriteImage 96).width = 378 ∧
    ((New 100 50).WriteImage 96).height = 189 := by
  have hmain := C6_raster_dimensions (New 100 50) 96 (by norm_num [New]) (by norm_num [New])
  refine ⟨hmain, ?_, ?_⟩
  · rw [hmain.1]
    show (⌊(100 : ℚ) * 96 / 25.4 + 1 / 2⌋ : Int) = 378
    rw [Int.floor_eq_iff]
    norm_num
  · rw [hmain.2.1]
    show (⌊(50 : ℚ) * 96 / 25.4 + 1 / 2⌋ : Int) = 189
    rw [Int.floor_eq_iff]
    norm_num

/-- Claim C7 (confirmed): in the page-description backend, whenever an emitted
paint operator is one of the stroke-involving variants, the close-and-paint
variant (`s`/`b`) is used exactly when the layer's serialized path data ends
in the explicit close-subpath token, and the paint-then-leave-open variant
(`S`/`B`) exactly otherwise. -/
theorem C7_closed_paint_variant (l : pathLayer) (t : List Char)
    (ht : t ∈ paintWrites (pathLayer.WritePDF l))
    (hst : t = [blank, 's'] ∨ t = [blank, 'b'] ∨ t = [blank, 'S'] ∨ t = [blank, 'B']) :
    ((t = [blank, 's'] ∨ t = [blank, 'b']) ↔ pdfClosed l.path = true) := by
  rw [paintWrites_writePDF] at ht
  cases hf : fillActive l <;> cases hs : strokeActive l <;>
    cases hu : strokeUnsupported l.ds.strokeJoiner <;>
    cases hcl : pdfClosed l.path <;>
    by_cases hd : l.ds.fillColor.a = l.ds.strokeColor.a <;>
    simp [hf, hs, hu, hcl, hd] at ht ⊢ <;>
    rcases ht with rfl | rfl <;> revert hst <;> decide

/-- Claim C7, witness: the theorem applied at a concrete stroke-only layer
over a closed path, whose emitted paint operator is the close-and-stroke
variant. -/
theorem C7_witness :
    (([blank, 's'] = [blank, 's'] ∨ [blank, 's'] = [blank, 'b']) ↔
      pdfClosed layerStrokeOnly.path = true) :=
  C7_closed_paint_variant layerStrokeOnly [blank, 's'] (by decide) (by decide)

/-- Claim C8 (confirmed): the draw state is snapshotted by value when a layer
is recorded: every later setter call mutates only the canvas's current draw
state and leaves the recorded layer stack — hence every already-recorded
layer's stored state — unchanged. -/
theorem C8_setters_preserve_layers (c : C) (col1 col2 : RGBA) (wd : ℚ)
    (cap : Capper) (j : Joiner) (off : ℚ) (ds : List ℚ) :
    (C.SetFillColor c col1).layers = c.layers ∧
    (C.SetStrokeColor c col2).layers = c.layers ∧
    (C.SetStrokeWidth c wd).layers = c.layers ∧
    (C.SetStrokeCapper c cap).layers = c.layers ∧
    (C.SetStrokeJoiner c j).layers = c.layers ∧
    (C.SetDashes c off ds).layers = c.layers :=
  ⟨rfl, rfl, rfl, rfl, rfl, rfl⟩

/-- Claim C9 (confirmed): in the markup backend, for a layer with an active
stroke (and a supported capper and joiner, so the export succeeds), the
dash-array attribute is emitted iff the dash pattern is non-empty, and the
dash-offset attribute is emitted iff additionally the offset is strictly
positive. -/
theorem C9_dash_emission (l : pathLayer) (h : ℚ) (hs : strokeActive l = true)
    (hc : l.ds.strokeCapper ≠ Capper.other) (hj : l.ds.strokeJoiner ≠ Joiner.other) :
    ∃ cs, pathLayer.WriteSVG l h = Except.ok cs ∧
      (hasDasharray cs = true ↔ l.ds.dashes ≠ []) ∧
      (hasDashoffset cs = true ↔ (l.ds.dashes ≠ [] ∧ 0 < l.ds.dashOffset)) := by
  obtain ⟨cc, hcc, hcc1, hcc2⟩ := svgCapChunks_spec hc
  obtain ⟨jc, hjc, hjc1, hjc2⟩ := svgJoinChunks_spec hj
  simp only [hasDasharray, hasDashoffset] at hcc1 hcc2 hjc1 hjc2
  have heq : pathLayer.WriteSVG l h = Except.ok
      ([SVGChunk.pathData (((l.path.Copy).Scale 1 (-1)).Translate 0 h).ToSVG,
        SVGChunk.strokeStyle l.ds.strokeColor] ++
        (if l.ds.strokeWidth ≠ 1 then [SVGChunk.strokeWidth l.ds.strokeWidth] else []) ++
        cc ++ jc ++
        (if 0 < l.ds.dashes.length then
          [SVGChunk.dasharray l.ds.dashes] ++
            (if 0 < l.ds.dashOffset then [SVGChunk.dashoffset l.ds.dashOffset] else [])
        else []) ++
        (if l.ds.fillColor ≠ Black then
          (if l.ds.fillColor.a ≠ 0 then [SVGChunk.fillStyle l.ds.fillColor]
           else [SVGChunk.fillNoneStyle])
        else []) ++
        (if FillRule = FillRuleKind.EvenOdd then [SVGChunk.fillRuleEvenOdd] else []) ++
        [SVGChunk.closeTag]) := by
    simp only [pathLayer.WriteSVG, hs, if_true, hcc, hjc]
  refine ⟨_, heq, ?_, ?_⟩
  · by_cases hdash : l.ds.dashes = [] <;>
      by_cases hoff : 0 < l.ds.dashOffset <;>
      simp [hasDasharray, List.any_append, any_ite_chunks, hcc1, hjc1, hdash, hoff,
        List.length_pos]
  · by_cases hdash : l.ds.dashes = [] <;>
      by_cases hoff : 0 < l.ds.dashOffset <;>
      simp [hasDashoffset, List.any_append, any_ite_chunks, hcc2, hjc2, hdash, hoff,
        List.length_pos]

/-- Claim C9, witness: the theorem applied at a concrete dashed layer with a
positive offset. -/
theorem C9_witness :
    ∃ cs, pathLayer.WriteSVG layerDashed 50 = Except.ok cs ∧
      (hasDasharray cs = true ↔ layerDashed.ds.dashes ≠ []) ∧
      (hasDashoffset cs = true ↔
        (layerDashed.ds.dashes ≠ [] ∧ 0 < layerDashed.ds.dashOffset)) :=
  C9_dash_emission layerDashed 50 (by decide) (by decide) (by decide)

/-- Claim C10 (confirmed): `DrawText` always appends exactly one text layer,
even for a text object referencing no fonts, and registers each font
referenced by the text into the canvas font set: after the call every font of
the text is a member of the canvas font set (and every previously registered
font remains a member); the registration is idempotent — drawing the same
text again leaves the font set unchanged. -/
theorem C10_drawtext_layer_fonts (c : C) (x y : ℚ) (t : Text) :
    (C.DrawText c x y t).layers.length = c.layers.length + 1 ∧
    (∀ f, f ∈ t.fonts → f ∈ (C.DrawText c x y t).fonts) ∧
    (∀ f, f ∈ c.fonts → f ∈ (C.DrawText c x y t).fonts) ∧
    (C.DrawText (C.DrawText c x y t) x y t).fonts = (C.DrawText c x y t).fonts := by
  refine ⟨by simp [C.DrawText], ?_, ?_, ?_⟩
  · intro f hf
    exact mem_registerFonts_right f c.fonts t.fonts hf
  · intro f hf
    exact mem_registerFonts_left f c.fonts t.fonts hf
  · show registerFonts (registerFonts c.fonts t.fonts) t.fonts = registerFonts c.fonts t.fonts
    exact registerFonts_idem c.fonts t.fonts

/-- Claim C10, witness: drawing a text referencing font 7 on a fresh canvas
puts font 7 into the canvas font set and appends exactly one layer. -/
theorem C10_witness :
    7 ∈ (C.DrawText (New 100 50) 3 4 (Text.mk [7])).fonts ∧
    (C.DrawText (New 100 50) 3 4 (Text.mk [7])).layers.length =
      (New 100 50).layers.length + 1 :=
  ⟨(C10_drawtext_layer_fonts (New 100 50) 3 4 (Text.mk [7])).2.1 7 (by decide),
   (C10_drawtext_layer_fonts (New 100 50) 3 4 (Text.mk [7])).1⟩

end canvas
